import Mathlib

/-!
Verification of the oboe-rs audio stream builder core.

This file shallowly embeds the stream-configuration builder of the
repository (src/oboe/src/audio_stream_builder.rs and
src/oboe/src/java_interface/definitions.rs) and proves the spec's claims
about it.  The raw builder record mirrors the C fields written by the
Rust setters (`self.raw._base.mXxx = ...`); the Rust field `_base` is
named `base` here.  Enumerations whose defining module is not part of
the provided sources (AudioApi, SharingMode, PerformanceMode, Usage,
ContentType, InputPreset, SessionId, SampleRateConversionQuality and the
marker-type traits IsDirection / IsChannelCount / IsFormat) are modelled
from the spec; only their distinctness and the association between a
variant and its integer tag matter for the claims.
-/

namespace OboeSpec

/-- Modelled from the spec: the `backend_api` enum {Unspecified, BackendA,
BackendB} (crate type `AudioApi`, defined outside src/).  Integer tags
follow the platform convention Unspecified = 0, OpenSLES = 1, AAudio = 2. -/
inductive AudioApi
  | Unspecified
  | OpenSLES
  | AAudio
deriving DecidableEq, Repr

/-- The `as i32` cast of an `AudioApi` value. -/
def AudioApi.toI32 : AudioApi → Int
  | .Unspecified => 0
  | .OpenSLES => 1
  | .AAudio => 2

/-- Modelled from the spec: the `FromPrimitive::from_i32` conversion derived
for `AudioApi` (the derive lives outside src/): defined exactly on the tags
of the three variants. -/
def AudioApi.fromI32 (i : Int) : Option AudioApi :=
  if i = 0 then some .Unspecified
  else if i = 1 then some .OpenSLES
  else if i = 2 then some .AAudio
  else none

/-- Modelled from the spec: direction enum {Input, Output} with the marker
types implementing `IsDirection` (outside src/); tags Output = 0, Input = 1. -/
inductive Direction
  | Input
  | Output
deriving DecidableEq, Repr

/-- The `X::DIRECTION as i32` tag of a direction marker type. -/
def Direction.toI32 : Direction → Int
  | .Output => 0
  | .Input => 1

/-- Modelled from the spec: the channel-count marker types implementing
`IsChannelCount` (outside src/); tags Unspecified = 0, Mono = 1, Stereo = 2. -/
inductive ChannelCount
  | Unspecified
  | Mono
  | Stereo
deriving DecidableEq, Repr

/-- The `X::CHANNEL_COUNT as i32` tag of a channel-count marker type. -/
def ChannelCount.toI32 : ChannelCount → Int
  | .Unspecified => 0
  | .Mono => 1
  | .Stereo => 2

/-- Modelled from the spec: the sample-format marker types implementing
`IsFormat` (outside src/): Unspecified, i16 and f32; tags 0, 1, 2. -/
inductive AudioFormat
  | Unspecified
  | I16
  | F32
deriving DecidableEq, Repr

/-- The `X::FORMAT as i32` tag of a format marker type. -/
def AudioFormat.toI32 : AudioFormat → Int
  | .Unspecified => 0
  | .I16 => 1
  | .F32 => 2

/-- Modelled from the spec: sharing-mode enum {Shared, Exclusive}
(outside src/); tags Exclusive = 0, Shared = 1. -/
inductive SharingMode
  | Exclusive
  | Shared
deriving DecidableEq, Repr

/-- The `as i32` cast of a `SharingMode` value. -/
def SharingMode.toI32 : SharingMode → Int
  | .Exclusive => 0
  | .Shared => 1

/-- Modelled from the spec: performance-mode enum {None, PowerSaving,
LowLatency} (outside src/); platform tags 10, 11, 12. -/
inductive PerformanceMode
  | None
  | PowerSaving
  | LowLatency
deriving DecidableEq, Repr

/-- The `as i32` cast of a `PerformanceMode` value. -/
def PerformanceMode.toI32 : PerformanceMode → Int
  | .None => 10
  | .PowerSaving => 11
  | .LowLatency => 12

/-- Modelled from the spec: the `Usage` platform-hint enum (outside src/),
represented by its i32 code. -/
structure Usage where
  code : Int
deriving DecidableEq, Repr

/-- Modelled from the spec: the default usage `Usage::Media` (code 1). -/
def Usage.Media : Usage := ⟨1⟩

/-- Modelled from the spec: the `ContentType` platform-hint enum (outside
src/), represented by its i32 code. -/
structure ContentType where
  code : Int
deriving DecidableEq, Repr

/-- Modelled from the spec: the default content type `ContentType::Music`
(code 2). -/
def ContentType.Music : ContentType := ⟨2⟩

/-- Modelled from the spec: the `InputPreset` platform-hint enum (outside
src/), represented by its i32 code. -/
structure InputPreset where
  code : Int
deriving DecidableEq, Repr

/-- Modelled from the spec: the default input preset
`InputPreset::VoiceRecognition` (code 6). -/
def InputPreset.VoiceRecognition : InputPreset := ⟨6⟩

/-- Modelled from the spec: session id is "none", "allocate" or an
allocated integer id (outside src/); tags None = -1, Allocate = 0. -/
inductive SessionId
  | None
  | Allocate
  | Explicit (id : Int)
deriving DecidableEq, Repr

/-- The `as i32` cast of a `SessionId` value. -/
def SessionId.toI32 : SessionId → Int
  | .None => -1
  | .Allocate => 0
  | .Explicit id => id

/-- Modelled from the spec: the sample-rate-converter quality enum
(outside src/), default None; tags 0 to 5. -/
inductive SampleRateConversionQuality
  | None
  | Fastest
  | Low
  | Medium
  | High
  | Best
deriving DecidableEq, Repr

/-- The `as i32` cast of a `SampleRateConversionQuality` value. -/
def SampleRateConversionQuality.toI32 : SampleRateConversionQuality → Int
  | .None => 0
  | .Fastest => 1
  | .Low => 2
  | .Medium => 3
  | .High => 4
  | .Best => 5

/-- The Configuration Record: the fields of `ffi::oboe_AudioStreamBase`
that the builder setters write (`self.raw._base.mXxx = ...`).  Pointer
fields are represented as integer addresses (0 = null). -/
structure AudioStreamBase where
  mDirection : Int
  mChannelCount : Int
  mFormat : Int
  mSampleRate : Int
  mFramesPerCallback : Int
  mBufferCapacityInFrames : Int
  mSharingMode : Int
  mPerformanceMode : Int
  mUsage : Int
  mContentType : Int
  mInputPreset : Int
  mSessionId : Int
  mDeviceId : Int
  mChannelConversionAllowed : Bool
  mFormatConversionAllowed : Bool
  mSampleRateConversionQuality : Int
  mStreamCallback : Int
deriving DecidableEq, Repr

/-- The raw `ffi::oboe_AudioStreamBuilder`: the embedded
`oboe_AudioStreamBase` (Rust field `_base`) plus the builder-only field
`mAudioApi`. -/
structure AudioStreamBuilderRaw where
  base : AudioStreamBase
  mAudioApi : Int
deriving DecidableEq, Repr

/-- `AudioStreamBuilder::set_channel_count` (src line 88): writes
`X::CHANNEL_COUNT as i32` into `mChannelCount`. -/
def set_channel_count (x : ChannelCount) (b : AudioStreamBuilderRaw) : AudioStreamBuilderRaw :=
  { b with base := { b.base with mChannelCount := x.toI32 } }

/-- `AudioStreamBuilder::set_mono` (src line 93). -/
def set_mono (b : AudioStreamBuilderRaw) : AudioStreamBuilderRaw :=
  set_channel_count .Mono b

/-- `AudioStreamBuilder::set_stereo` (src line 97). -/
def set_stereo (b : AudioStreamBuilderRaw) : AudioStreamBuilderRaw :=
  set_channel_count .Stereo b

/-- `AudioStreamBuilder::set_direction` (src line 106): writes
`X::DIRECTION as i32` into `mDirection`. -/
def set_direction (x : Direction) (b : AudioStreamBuilderRaw) : AudioStreamBuilderRaw :=
  { b with base := { b.base with mDirection := x.toI32 } }

/-- `AudioStreamBuilder::set_input` (src line 111). -/
def set_input (b : AudioStreamBuilderRaw) : AudioStreamBuilderRaw :=
  set_direction .Input b

/-- `AudioStreamBuilder::set_output` (src line 115). -/
def set_output (b : AudioStreamBuilderRaw) : AudioStreamBuilderRaw :=
  set_direction .Output b

/-- `AudioStreamBuilder::set_format` (src line 160): writes
`X::FORMAT as i32` into `mFormat`. -/
def set_format (x : AudioFormat) (b : AudioStreamBuilderRaw) : AudioStreamBuilderRaw :=
  { b with base := { b.base with mFormat := x.toI32 } }

/-- `AudioStreamBuilder::set_i16` (src line 165). -/
def set_i16 (b : AudioStreamBuilderRaw) : AudioStreamBuilderRaw :=
  set_format .I16 b

/-- `AudioStreamBuilder::set_f32` (src line 169). -/
def set_f32 (b : AudioStreamBuilderRaw) : AudioStreamBuilderRaw :=
  set_format .F32 b

/-- `AudioStreamBuilder::set_sample_rate` (src line 130). -/
def set_sample_rate (v : Int) (b : AudioStreamBuilderRaw) : AudioStreamBuilderRaw :=
  { b with base := { b.base with mSampleRate := v } }

/-- `AudioStreamBuilder::set_frames_per_callback` (src line 149). -/
def set_frames_per_callback (v : Int) (b : AudioStreamBuilderRaw) : AudioStreamBuilderRaw :=
  { b with base := { b.base with mFramesPerCallback := v } }

/-- `AudioStreamBuilder::set_buffer_capacity_in_frames` (src line 185). -/
def set_buffer_capacity_in_frames (v : Int) (b : AudioStreamBuilderRaw) : AudioStreamBuilderRaw :=
  { b with base := { b.base with mBufferCapacityInFrames := v } }

/-- `AudioStreamBuilder::set_audio_api` (src line 217): writes
`audio_api as i32` into the builder-level field `mAudioApi`. -/
def set_audio_api (a : AudioApi) (b : AudioStreamBuilderRaw) : AudioStreamBuilderRaw :=
  { b with mAudioApi := a.toI32 }

/-- `AudioStreamBuilder::get_audio_api` (src line 200):
`FromPrimitive::from_i32(self.raw.mAudioApi).unwrap()`.  The value is
`none` exactly when the unwrap would panic. -/
def get_audio_api (b : AudioStreamBuilderRaw) : Option AudioApi :=
  AudioApi.fromI32 b.mAudioApi

/-- `AudioStreamBuilder::set_sharing_mode` (src line 253). -/
def set_sharing_mode (m : SharingMode) (b : AudioStreamBuilderRaw) : AudioStreamBuilderRaw :=
  { b with base := { b.base with mSharingMode := m.toI32 } }

/-- `AudioStreamBuilder::set_shared` (src line 258). -/
def set_shared (b : AudioStreamBuilderRaw) : AudioStreamBuilderRaw :=
  set_sharing_mode .Shared b

/-- `AudioStreamBuilder::set_exclusive` (src line 262). -/
def set_exclusive (b : AudioStreamBuilderRaw) : AudioStreamBuilderRaw :=
  set_sharing_mode .Exclusive b

/-- `AudioStreamBuilder::set_performance_mode` (src line 274). -/
def set_performance_mode (m : PerformanceMode) (b : AudioStreamBuilderRaw) : AudioStreamBuilderRaw :=
  { b with base := { b.base with mPerformanceMode := m.toI32 } }

/-- `AudioStreamBuilder::set_usage` (src line 291). -/
def set_usage (u : Usage) (b : AudioStreamBuilderRaw) : AudioStreamBuilderRaw :=
  { b with base := { b.base with mUsage := u.code } }

/-- `AudioStreamBuilder::set_content_type` (src line 308). -/
def set_content_type (c : ContentType) (b : AudioStreamBuilderRaw) : AudioStreamBuilderRaw :=
  { b with base := { b.base with mContentType := c.code } }

/-- `AudioStreamBuilder::set_input_preset` (src line 328). -/
def set_input_preset (p : InputPreset) (b : AudioStreamBuilderRaw) : AudioStreamBuilderRaw :=
  { b with base := { b.base with mInputPreset := p.code } }

/-- `AudioStreamBuilder::set_session_id` (src line 358). -/
def set_session_id (s : SessionId) (b : AudioStreamBuilderRaw) : AudioStreamBuilderRaw :=
  { b with base := { b.base with mSessionId := s.toI32 } }

/-- `AudioStreamBuilder::set_device_id` (src line 381). -/
def set_device_id (v : Int) (b : AudioStreamBuilderRaw) : AudioStreamBuilderRaw :=
  { b with base := { b.base with mDeviceId := v } }

/-- `AudioStreamBuilder::set_channel_conversion_allowed` (src line 395). -/
def set_channel_conversion_allowed (a : Bool) (b : AudioStreamBuilderRaw) : AudioStreamBuilderRaw :=
  { b with base := { b.base with mChannelConversionAllowed := a } }

/-- `AudioStreamBuilder::set_format_conversion_allowed` (src line 407). -/
def set_format_conversion_allowed (a : Bool) (b : AudioStreamBuilderRaw) : AudioStreamBuilderRaw :=
  { b with base := { b.base with mFormatConversionAllowed := a } }

/-- `AudioStreamBuilder::set_sample_rate_conversion_quality` (src line 423). -/
def set_sample_rate_conversion_quality (q : SampleRateConversionQuality)
    (b : AudioStreamBuilderRaw) : AudioStreamBuilderRaw :=
  { b with base := { b.base with mSampleRateConversionQuality := q.toI32 } }

/-- `AudioStreamBuilder::will_use_aaudio` (src lines 431-434), with the two
platform probes `is_aaudio_supported` / `is_aaudio_recommended` (external
calls) passed as parameters. -/
def will_use_aaudio (b : AudioStreamBuilderRaw)
    (aaudio_supported aaudio_recommended : Bool) : Bool :=
  (b.mAudioApi == AudioApi.AAudio.toI32 && aaudio_supported) ||
    (b.mAudioApi == AudioApi.Unspecified.toI32 && aaudio_recommended)

/-- `AudioStreamBuilder::new` (src line 68).  Modelled from the spec: the
field values come from the C constructor `oboe_AudioStreamBuilder_new`,
which is outside src/; the spec (and the setter doc comments in src/) give
the defaults: direction Output, everything else unspecified, sharing
Shared, usage Media, content type Music, input preset VoiceRecognition,
session id None, conversions allowed, resample quality None, audio api
Unspecified, no callback. -/
def new_builder : AudioStreamBuilderRaw :=
  { base :=
      { mDirection := Direction.Output.toI32
        mChannelCount := ChannelCount.Unspecified.toI32
        mFormat := AudioFormat.Unspecified.toI32
        mSampleRate := 0
        mFramesPerCallback := 0
        mBufferCapacityInFrames := 0
        mSharingMode := SharingMode.Shared.toI32
        mPerformanceMode := PerformanceMode.None.toI32
        mUsage := Usage.Media.code
        mContentType := ContentType.Music.code
        mInputPreset := InputPreset.VoiceRecognition.code
        mSessionId := SessionId.None.toI32
        mDeviceId := 0
        mChannelConversionAllowed := true
        mFormatConversionAllowed := true
        mSampleRateConversionQuality := SampleRateConversionQuality.None.toI32
        mStreamCallback := 0 }
    mAudioApi := AudioApi.Unspecified.toI32 }

/-- `AudioDeviceDirection` (src/oboe/src/java_interface/definitions.rs
lines 122-126). -/
inductive AudioDeviceDirection
  | Input
  | Output
  | InputOutput
deriving DecidableEq, Repr, Fintype

/-- `AudioDeviceDirection::new` (definitions.rs lines 129-137). -/
def AudioDeviceDirection.new (is_input is_output : Bool) : Option AudioDeviceDirection :=
  match is_input, is_output with
  | true, true => some .InputOutput
  | false, true => some .Output
  | true, false => some .Input
  | _, _ => none

/-- `AudioDeviceDirection::is_input` (definitions.rs lines 139-141). -/
def AudioDeviceDirection.is_input (d : AudioDeviceDirection) : Bool :=
  d != AudioDeviceDirection.Output

/-- `AudioDeviceDirection::is_output` (definitions.rs lines 143-145). -/
def AudioDeviceDirection.is_output (d : AudioDeviceDirection) : Bool :=
  d != AudioDeviceDirection.Input

/-- One orthogonal (in-place, `&mut self`) setter call together with its
argument: the fourteen chainable setters of `AudioStreamBuilder`. -/
inductive OrthoCall
  | sampleRate (v : Int)
  | framesPerCallback (v : Int)
  | bufferCapacityInFrames (v : Int)
  | audioApi (a : AudioApi)
  | sharingMode (m : SharingMode)
  | performanceMode (m : PerformanceMode)
  | usage (u : Usage)
  | contentType (c : ContentType)
  | inputPreset (p : InputPreset)
  | sessionId (s : SessionId)
  | deviceId (v : Int)
  | channelConversionAllowed (a : Bool)
  | formatConversionAllowed (a : Bool)
  | sampleRateConversionQuality (q : SampleRateConversionQuality)
deriving DecidableEq, Repr

/-- Apply one orthogonal setter call, dispatching to the embedded source
setters. -/
def applyCall (b : AudioStreamBuilderRaw) : OrthoCall → AudioStreamBuilderRaw
  | .sampleRate v => set_sample_rate v b
  | .framesPerCallback v => set_frames_per_callback v b
  | .bufferCapacityInFrames v => set_buffer_capacity_in_frames v b
  | .audioApi a => set_audio_api a b
  | .sharingMode m => set_sharing_mode m b
  | .performanceMode m => set_performance_mode m b
  | .usage u => set_usage u b
  | .contentType c => set_content_type c b
  | .inputPreset p => set_input_preset p b
  | .sessionId s => set_session_id s b
  | .deviceId v => set_device_id v b
  | .channelConversionAllowed a => set_channel_conversion_allowed a b
  | .formatConversionAllowed a => set_format_conversion_allowed a b
  | .sampleRateConversionQuality q => set_sample_rate_conversion_quality q b

/-- Apply a sequence of orthogonal setter calls in the order issued. -/
def applyCalls (b : AudioStreamBuilderRaw) : List OrthoCall → AudioStreamBuilderRaw
  | [] => b
  | c :: cs => applyCalls (applyCall b c) cs

/-- The record field each orthogonal setter touches. -/
inductive BuilderField
  | sampleRate
  | framesPerCallback
  | bufferCapacityInFrames
  | audioApi
  | sharingMode
  | performanceMode
  | usage
  | contentType
  | inputPreset
  | sessionId
  | deviceId
  | channelConversionAllowed
  | formatConversionAllowed
  | sampleRateConversionQuality
deriving DecidableEq, Repr

/-- The field an orthogonal setter call writes. -/
def touches : OrthoCall → BuilderField
  | .sampleRate _ => .sampleRate
  | .framesPerCallback _ => .framesPerCallback
  | .bufferCapacityInFrames _ => .bufferCapacityInFrames
  | .audioApi _ => .audioApi
  | .sharingMode _ => .sharingMode
  | .performanceMode _ => .performanceMode
  | .usage _ => .usage
  | .contentType _ => .contentType
  | .inputPreset _ => .inputPreset
  | .sessionId _ => .sessionId
  | .deviceId _ => .deviceId
  | .channelConversionAllowed _ => .channelConversionAllowed
  | .formatConversionAllowed _ => .formatConversionAllowed
  | .sampleRateConversionQuality _ => .sampleRateConversionQuality

/-- A field value: the touched fields are i32 or bool. -/
inductive FieldVal
  | int (i : Int)
  | bool (b : Bool)
deriving DecidableEq, Repr

/-- Read one field of the record. -/
def fieldVal (f : BuilderField) (b : AudioStreamBuilderRaw) : FieldVal :=
  match f with
  | .sampleRate => .int b.base.mSampleRate
  | .framesPerCallback => .int b.base.mFramesPerCallback
  | .bufferCapacityInFrames => .int b.base.mBufferCapacityInFrames
  | .audioApi => .int b.mAudioApi
  | .sharingMode => .int b.base.mSharingMode
  | .performanceMode => .int b.base.mPerformanceMode
  | .usage => .int b.base.mUsage
  | .contentType => .int b.base.mContentType
  | .inputPreset => .int b.base.mInputPreset
  | .sessionId => .int b.base.mSessionId
  | .deviceId => .int b.base.mDeviceId
  | .channelConversionAllowed => .bool b.base.mChannelConversionAllowed
  | .formatConversionAllowed => .bool b.base.mFormatConversionAllowed
  | .sampleRateConversionQuality => .int b.base.mSampleRateConversionQuality

/-- The value a call writes into its field (the argument, after the
`as i32` cast where the source casts). -/
def writeVal : OrthoCall → FieldVal
  | .sampleRate v => .int v
  | .framesPerCallback v => .int v
  | .bufferCapacityInFrames v => .int v
  | .audioApi a => .int a.toI32
  | .sharingMode m => .int m.toI32
  | .performanceMode m => .int m.toI32
  | .usage u => .int u.code
  | .contentType c => .int c.code
  | .inputPreset p => .int p.code
  | .sessionId s => .int s.toI32
  | .deviceId v => .int v
  | .channelConversionAllowed a => .bool a
  | .formatConversionAllowed a => .bool a
  | .sampleRateConversionQuality q => .int q.toI32

/-- The value written by the last call in the list that touches field `f`,
if any (later calls in the list are issued later). -/
def lastWrittenVal (f : BuilderField) : List OrthoCall → Option FieldVal
  | [] => none
  | c :: cs =>
    match lastWrittenVal f cs with
    | some v => some v
    | none => if touches c = f then some (writeVal c) else none

/-- Which callback trait a callback object implements:
`AudioInputCallback` or `AudioOutputCallback`. -/
inductive CallbackKind
  | input
  | output
deriving DecidableEq, Repr

/-- The static capabilities of a user callback object `F`: the trait it
implements and its declared `FrameType` associated type, a
(sample format, channel count) pair. -/
structure CallbackTy where
  kind : CallbackKind
  frameType : AudioFormat × ChannelCount
deriving DecidableEq, Repr

/-- The callback trait `set_callback` requires for each builder direction:
the `AudioStreamBuilder<Input, C, T>` impl (src lines 460, 482-486) demands
`AudioInputCallback`, the `AudioStreamBuilder<Output, C, T>` impl (src
lines 493, 515-519) demands `AudioOutputCallback`. -/
def kindOfDirection : Direction → CallbackKind
  | .Input => .input
  | .Output => .output

/-- Modelled from the spec: the `IsFrameType` bound on `(T, C)` in
`set_callback` (trait defined outside src/) holds for the concrete
(format, channel count) pairs. -/
def isFrameType (ft : AudioFormat × ChannelCount) : Prop :=
  ft.1 ≠ AudioFormat.Unspecified ∧ ft.2 ≠ ChannelCount.Unspecified

/-- The record write performed inside `set_callback` (src lines 488 and
521): `self.raw._base.mStreamCallback = ...`, with the stored address `p`
passed in (the memory model at the end of this file records which address
the source expression actually produces). -/
def install_callback_ptr (p : Int) (b : AudioStreamBuilderRaw) : AudioStreamBuilderRaw :=
  { b with base := { b.base with mStreamCallback := p } }

/-- Modelled from the spec: the platform status codes that `wrap_status`
(outside src/) surfaces as the error value of `open_stream`. -/
abbrev ErrorCode := Int

/-- The synchronous stream wrapper produced by
`AudioStreamBuilder::open_stream` (src line 454): owns the native handle. -/
structure AudioStreamSyncM where
  handle : Nat
deriving DecidableEq, Repr

/-- `AudioStreamBuilder::open_stream` (src lines 446-457): invokes the
platform entry point (passed here as the oracle `platformOpen`, combining
`oboe_AudioStreamBuilder_openStream` and `wrap_status`, both outside src/)
and maps a success into the wrapping stream object. -/
def open_stream (platformOpen : AudioStreamBuilderRaw → Except ErrorCode Nat)
    (b : AudioStreamBuilderRaw) : Except ErrorCode AudioStreamSyncM :=
  (platformOpen b).map AudioStreamSyncM.mk

/-- The type-state of a builder value, as tracked by the Rust type system:
a base `AudioStreamBuilder<D, C, T>` (carrying its record), an
`AudioStreamBuilderAsync<D, F>` after a callback was bound (src lines
529-533), or one of the terminal outcomes of `open_stream`: an opened
sync stream, an opened async stream owning the callback, or a surfaced
error (the builder having been consumed in every outcome). -/
inductive BState
  | base (d : Direction) (c : ChannelCount) (t : AudioFormat) (raw : AudioStreamBuilderRaw)
  | async (d : Direction) (f : CallbackTy) (raw : AudioStreamBuilderRaw)
  | syncStream (d : Direction) (t : AudioFormat) (c : ChannelCount)
  | asyncStream (d : Direction) (f : CallbackTy)
  | failed (e : ErrorCode)
deriving DecidableEq, Repr

/-- A public-API operation on a builder value. -/
inductive Op
  | setChannelCount (x : ChannelCount)
  | setDirection (x : Direction)
  | setFormat (x : AudioFormat)
  | ortho (oc : OrthoCall)
  | setCallback (f : CallbackTy) (p : Int)
  | openStream (res : Except ErrorCode Nat)
deriving Repr

/-- One public-API step on a builder value.  The premises of `callback`
are the where-clauses of `set_callback`
(`F: AudioInputCallback<FrameType = (T, C)>` resp.
`F: AudioOutputCallback<FrameType = (T, C)>`, and `(T, C): IsFrameType`);
the base builder offers no operation that mutates an async builder's
direction, and no constructor starts from a terminal state. -/
inductive Step : BState → Op → BState → Prop
  | chan (d : Direction) (c : ChannelCount) (t : AudioFormat)
      (raw : AudioStreamBuilderRaw) (x : ChannelCount) :
      Step (.base d c t raw) (.setChannelCount x) (.base d x t (set_channel_count x raw))
  | dir (d : Direction) (c : ChannelCount) (t : AudioFormat)
      (raw : AudioStreamBuilderRaw) (x : Direction) :
      Step (.base d c t raw) (.setDirection x) (.base x c t (set_direction x raw))
  | fmt (d : Direction) (c : ChannelCount) (t : AudioFormat)
      (raw : AudioStreamBuilderRaw) (x : AudioFormat) :
      Step (.base d c t raw) (.setFormat x) (.base d c x (set_format x raw))
  | ortho (d : Direction) (c : ChannelCount) (t : AudioFormat)
      (raw : AudioStreamBuilderRaw) (oc : OrthoCall) :
      Step (.base d c t raw) (.ortho oc) (.base d c t (applyCall raw oc))
  | callback (d : Direction) (c : ChannelCount) (t : AudioFormat)
      (raw : AudioStreamBuilderRaw) (f : CallbackTy) (p : Int)
      (hkind : f.kind = kindOfDirection d)
      (hframe : f.frameType = (t, c))
      (hft : isFrameType f.frameType) :
      Step (.base d c t raw) (.setCallback f p) (.async d f (install_callback_ptr p raw))
  | openSyncOk (d : Direction) (c : ChannelCount) (t : AudioFormat)
      (raw : AudioStreamBuilderRaw) (h : Nat) :
      Step (.base d c t raw) (.openStream (.ok h)) (.syncStream d t c)
  | openSyncErr (d : Direction) (c : ChannelCount) (t : AudioFormat)
      (raw : AudioStreamBuilderRaw) (e : ErrorCode) :
      Step (.base d c t raw) (.openStream (.error e)) (.failed e)
  | openAsyncOk (d : Direction) (f : CallbackTy)
      (raw : AudioStreamBuilderRaw) (h : Nat) :
      Step (.async d f raw) (.openStream (.ok h)) (.asyncStream d f)
  | openAsyncErr (d : Direction) (f : CallbackTy)
      (raw : AudioStreamBuilderRaw) (e : ErrorCode) :
      Step (.async d f raw) (.openStream (.error e)) (.failed e)

/-- A sequence of public-API steps. -/
inductive Steps : BState → List Op → BState → Prop
  | nil (s : BState) : Steps s [] s
  | cons {s s1 s2 : BState} {op : Op} {ops : List Op} :
      Step s op s1 → Steps s1 ops s2 → Steps s (op :: ops) s2

/-- The direction tag of a builder-or-stream state, when one exists. -/
def dirOf : BState → Option Direction
  | .base d _ _ _ => some d
  | .async d _ _ => some d
  | .syncStream d _ _ => some d
  | .asyncStream d _ => some d
  | .failed _ => none

/-- The bound callback of a state, when one exists. -/
def cbOf : BState → Option CallbackTy
  | .async _ f _ => some f
  | .asyncStream _ f => some f
  | _ => none

/-- The configuration record still held by a not-yet-consumed builder. -/
def rawOf : BState → Option AudioStreamBuilderRaw
  | .base _ _ _ raw => some raw
  | .async _ _ raw => some raw
  | _ => none

/-- States in which the builder has been consumed by `open_stream`. -/
def terminal : BState → Prop
  | .syncStream _ _ _ => True
  | .asyncStream _ _ => True
  | .failed _ => True
  | _ => False

/-- The state produced by `AudioStreamBuilder::new()`:
`AudioStreamBuilder<Output, Unspecified, Unspecified>` (src line 64)
holding the default record. -/
def initState : BState :=
  .base .Output .Unspecified .Unspecified new_builder

/-- States that still carry the direction `d` and callback `f` fixed at
binding time (or have already surfaced an error, carrying neither). -/
def matchesAsync (d : Direction) (f : CallbackTy) : BState → Prop
  | .async d2 f2 _ => d2 = d ∧ f2 = f
  | .asyncStream d2 f2 => d2 = d ∧ f2 = f
  | .failed _ => True
  | _ => False

/-- States whose still-held record (if any) has an `mAudioApi` value on
which `FromPrimitive::from_i32` succeeds. -/
def apiValid (s : BState) : Prop :=
  match rawOf s with
  | some raw => (AudioApi.fromI32 raw.mAudioApi).isSome = true
  | none => True

/-- The two allocations involved in a `set_callback` call (src lines
487-488 and 520-521): the adapter storage created by
`AudioCallbackWrapper::wrap(stream_callback)` and owned by the returned
async builder, and the statement temporary materialized by the Rust
expression `&callback.raw_callback()` (taking `&` of a function-call
result creates a fresh temporary whose lifetime ends with the enclosing
statement). -/
inductive CallbackAlloc
  | adapter
  | temp
deriving DecidableEq, Repr

/-- The phases of the bound callback's life relevant to the claim: during
the body of `set_callback`; after `set_callback` returned, the adapter
owned by the `AudioStreamBuilderAsync` (src line 489/522); after
`open_stream` succeeded, the adapter owned by the `AudioStreamAsync` (src
lines 568-571 and 592-595); after the stream is closed. -/
inductive CallbackPhase
  | duringBind
  | builderOwned
  | streamOpen
  | afterClose
deriving DecidableEq, Repr

/-- Liveness of each allocation per phase, read off the source's ownership
flow: the adapter moves from the wrap call into the async builder and then
into the opened stream, so its storage is live until the stream is closed;
the statement temporary is dropped at the end of the assignment statement
inside `set_callback`, so it is dead in every later phase. -/
def callbackAllocLive : CallbackPhase → CallbackAlloc → Bool
  | .duringBind, _ => true
  | .builderOwned, .adapter => true
  | .builderOwned, .temp => false
  | .streamOpen, .adapter => true
  | .streamOpen, .temp => false
  | .afterClose, _ => false

/-- The allocation whose address the source actually stores into
`mStreamCallback` (src line 488/521):
`&callback.raw_callback() as *const _ as *mut _` is the address of the
statement temporary holding the value returned by `raw_callback()`, not
the address of the adapter's own storage. -/
def installedPointerTarget : CallbackAlloc := .temp

/-- The allocation the claim says the installed pointer targets: the
callback adapter owned by the async builder and then by the stream. -/
def claimedPointerTarget : CallbackAlloc := .adapter

/-- A single orthogonal setter call writes exactly its own field and
leaves every other field unchanged. -/
theorem fieldVal_applyCall (f : BuilderField) (b : AudioStreamBuilderRaw) (c : OrthoCall) :
    fieldVal f (applyCall b c) = if touches c = f then writeVal c else fieldVal f b := by
  cases c <;> cases f <;> rfl

/-- Last write wins: after any call sequence, a field holds the value of
the last call that touched it, or its initial value if none did. -/
theorem fieldVal_applyCalls (calls : List OrthoCall) (b : AudioStreamBuilderRaw)
    (f : BuilderField) :
    fieldVal f (applyCalls b calls) = (lastWrittenVal f calls).getD (fieldVal f b) := by
  induction calls generalizing b with
  | nil => rfl
  | cons c cs ih =>
    show fieldVal f (applyCalls (applyCall b c) cs) = _
    rw [ih, fieldVal_applyCall]
    show _ = Option.getD (match lastWrittenVal f cs with
      | some v => some v
      | none => if touches c = f then some (writeVal c) else none) (fieldVal f b)
    cases lastWrittenVal f cs with
    | some v => rfl
    | none =>
      by_cases h : touches c = f
      · simp [h]
      · simp [h]

/-- Orthogonal setters touching different fields commute. -/
theorem applyCall_comm (b : AudioStreamBuilderRaw) (c1 c2 : OrthoCall)
    (h : touches c1 ≠ touches c2) :
    applyCall (applyCall b c1) c2 = applyCall (applyCall b c2) c1 := by
  cases c1 <;> cases c2 <;> first | rfl | exact absurd rfl h

/-- Any property preserved by every step holds in every reachable state. -/
theorem steps_inv {P : BState → Prop}
    (hpres : ∀ s op s2, P s → Step s op s2 → P s2)
    {s0 : BState} {ops : List Op} {s1 : BState}
    (h : Steps s0 ops s1) (h0 : P s0) : P s1 := by
  induction h with
  | nil => exact h0
  | cons hstep _ ih => exact ih (hpres _ _ _ h0 hstep)

/-- Every step preserves `matchesAsync d f`. -/
theorem step_preserves_matchesAsync (d : Direction) (f : CallbackTy)
    (s : BState) (op : Op) (s2 : BState)
    (hP : matchesAsync d f s) (hstep : Step s op s2) : matchesAsync d f s2 := by
  cases hstep <;> first | exact hP.elim | exact hP | trivial

/-- Every step preserves `apiValid`. -/
theorem step_preserves_apiValid (s : BState) (op : Op) (s2 : BState)
    (hP : apiValid s) (hstep : Step s op s2) : apiValid s2 := by
  cases hstep with
  | chan d c t raw x => exact hP
  | dir d c t raw x => exact hP
  | fmt d c t raw x => exact hP
  | ortho d c t raw oc =>
    cases oc with
    | audioApi a => cases a <;> rfl
    | sampleRate v => exact hP
    | framesPerCallback v => exact hP
    | bufferCapacityInFrames v => exact hP
    | sharingMode m => exact hP
    | performanceMode m => exact hP
    | usage u => exact hP
    | contentType c2 => exact hP
    | inputPreset p => exact hP
    | sessionId s3 => exact hP
    | deviceId v => exact hP
    | channelConversionAllowed a => exact hP
    | formatConversionAllowed a => exact hP
    | sampleRateConversionQuality q => exact hP
  | callback d c t raw f2 p hk hf hft => exact hP
  | openSyncOk d c t raw h2 => trivial
  | openSyncErr d c t raw e => trivial
  | openAsyncOk d f2 raw h2 => trivial
  | openAsyncErr d f2 raw e => trivial

/-- C1: the claim says the pointer installed into `mStreamCallback` by
`set_callback` points to the callback adapter owned by the resulting
async builder (and subsequently by the opened stream), whose storage
remains valid until the stream is closed.  The code instead stores the
address of a statement temporary (`&callback.raw_callback()`), which is a
different allocation and is already dead once `set_callback` has
returned — in particular dead while the stream is open — whereas the
adapter storage itself is indeed live until close. -/
theorem claim_C1_installed_pointer_dangling :
    installedPointerTarget ≠ claimedPointerTarget ∧
    callbackAllocLive .builderOwned installedPointerTarget = false ∧
    callbackAllocLive .streamOpen installedPointerTarget = false ∧
    callbackAllocLive .builderOwned claimedPointerTarget = true ∧
    callbackAllocLive .streamOpen claimedPointerTarget = true := by
  decide

/-- C2: `will_use_aaudio` returns true iff the requested backend is
AAudio and AAudio is supported, or the requested backend is Unspecified
and AAudio is recommended; false for every other combination of stored
`mAudioApi` value and probe results. -/
theorem claim_C2_will_use_aaudio (b : AudioStreamBuilderRaw) (s r : Bool) :
    will_use_aaudio b s r = true ↔
      ((b.mAudioApi = AudioApi.AAudio.toI32 ∧ s = true) ∨
        (b.mAudioApi = AudioApi.Unspecified.toI32 ∧ r = true)) := by
  simp [will_use_aaudio]

/-- C3: every type-narrowing setter (and each convenience alias) leaves
the corresponding record field exactly equal to the integer tag of the
chosen marker type, for every legal type argument. -/
theorem claim_C3_type_narrowing_setters (b : AudioStreamBuilderRaw) :
    (∀ x : ChannelCount, (set_channel_count x b).base.mChannelCount = x.toI32) ∧
    (∀ x : Direction, (set_direction x b).base.mDirection = x.toI32) ∧
    (∀ x : AudioFormat, (set_format x b).base.mFormat = x.toI32) ∧
    (set_mono b).base.mChannelCount = ChannelCount.Mono.toI32 ∧
    (set_stereo b).base.mChannelCount = ChannelCount.Stereo.toI32 ∧
    (set_input b).base.mDirection = Direction.Input.toI32 ∧
    (set_output b).base.mDirection = Direction.Output.toI32 ∧
    (set_i16 b).base.mFormat = AudioFormat.I16.toI32 ∧
    (set_f32 b).base.mFormat = AudioFormat.F32.toI32 :=
  ⟨fun _ => rfl, fun _ => rfl, fun _ => rfl, rfl, rfl, rfl, rfl, rfl, rfl⟩

/-- C4: for every sequence of orthogonal setter calls, each field of the
final record equals the value written by the last call that touched it
(or the initial value if none did), and setters touching different
fields commute. -/
theorem claim_C4_orthogonal_setters :
    (∀ (b : AudioStreamBuilderRaw) (calls : List OrthoCall) (f : BuilderField),
      fieldVal f (applyCalls b calls) = (lastWrittenVal f calls).getD (fieldVal f b)) ∧
    (∀ (b : AudioStreamBuilderRaw) (c1 c2 : OrthoCall), touches c1 ≠ touches c2 →
      applyCall (applyCall b c1) c2 = applyCall (applyCall b c2) c1) :=
  ⟨fun b calls f => fieldVal_applyCalls calls b f, applyCall_comm⟩

/-- Witness for C4: a sample-rate call and a device-id call commute on
the default builder. -/
theorem claim_C4_witness :
    applyCall (applyCall new_builder (.sampleRate 44100)) (.deviceId 3) =
      applyCall (applyCall new_builder (.deviceId 3)) (.sampleRate 44100) :=
  claim_C4_orthogonal_setters.2 new_builder (.sampleRate 44100) (.deviceId 3) (by decide)

/-- C5: a callback binding step exists only when the callback's declared
frame type exactly equals the builder's current (format, channel count)
pair; every mismatched binding attempt is rejected (no step exists). -/
theorem claim_C5_callback_frame_type (d : Direction) (c : ChannelCount)
    (t : AudioFormat) (raw : AudioStreamBuilderRaw) (f : CallbackTy) (p : Int) :
    (∀ s2, Step (.base d c t raw) (.setCallback f p) s2 → f.frameType = (t, c)) ∧
    (f.frameType ≠ (t, c) → ¬∃ s2, Step (.base d c t raw) (.setCallback f p) s2) := by
  constructor
  · intro s2 h
    cases h with
    | callback _ _ _ _ _ _ hk hf hft => exact hf
  · intro hne h
    obtain ⟨s2, hs⟩ := h
    cases hs with
    | callback _ _ _ _ _ _ hk hf hft => exact hne hf

/-- Witness for C5: binding an output callback declared for
(I16, Stereo) on a builder currently typed (F32, Stereo) is rejected. -/
theorem claim_C5_witness :
    ¬∃ s2, Step (.base .Output .Stereo .F32 new_builder)
      (.setCallback ⟨.output, (.I16, .Stereo)⟩ 1) s2 :=
  (claim_C5_callback_frame_type .Output .Stereo .F32 new_builder
    ⟨.output, (.I16, .Stereo)⟩ 1).2 (by decide)

/-- C6: `open_stream` yields either a stream or an error (nothing else),
every open step from a builder state lands in a terminal state, and no
operation applies to a terminal state (the builder is consumed). -/
theorem claim_C6_open_consumes :
    (∀ (platformOpen : AudioStreamBuilderRaw → Except ErrorCode Nat)
        (b : AudioStreamBuilderRaw),
      (∃ s, open_stream platformOpen b = .ok s) ∨
        (∃ e, open_stream platformOpen b = .error e)) ∧
    (∀ (d : Direction) (c : ChannelCount) (t : AudioFormat)
        (raw : AudioStreamBuilderRaw) (res : Except ErrorCode Nat) (s2 : BState),
      Step (.base d c t raw) (.openStream res) s2 → terminal s2) ∧
    (∀ (d : Direction) (f : CallbackTy)
        (raw : AudioStreamBuilderRaw) (res : Except ErrorCode Nat) (s2 : BState),
      Step (.async d f raw) (.openStream res) s2 → terminal s2) ∧
    (∀ (s : BState) (op : Op) (s2 : BState), terminal s → Step s op s2 → False) := by
  refine ⟨?_, ?_, ?_, ?_⟩
  · intro platformOpen b
    unfold open_stream
    cases platformOpen b with
    | ok v => exact Or.inl ⟨⟨v⟩, rfl⟩
    | error e => exact Or.inr ⟨e, rfl⟩
  · intro d c t raw res s2 h
    cases h <;> trivial
  · intro d f raw res s2 h
    cases h <;> trivial
  · intro s op s2 hterm hstep
    cases hstep <;> exact hterm

/-- Witness for C6: the successful open step from a base builder lands in
a terminal (consumed) state. -/
theorem claim_C6_witness :
    terminal (BState.syncStream .Output .Unspecified .Unspecified) :=
  claim_C6_open_consumes.2.1 .Output .Unspecified .Unspecified new_builder (.ok 0) _
    (Step.openSyncOk .Output .Unspecified .Unspecified new_builder 0)

/-- C7: from an async builder, every reachable state that still carries a
direction carries the direction the builder had at binding time, and
every reachable state that still carries a callback carries the bound
callback. -/
theorem claim_C7_direction_fixed_after_bind (d : Direction) (f : CallbackTy)
    (raw : AudioStreamBuilderRaw) (ops : List Op) (s2 : BState)
    (h : Steps (.async d f raw) ops s2) :
    (∀ d2, dirOf s2 = some d2 → d2 = d) ∧
    (∀ f2, cbOf s2 = some f2 → f2 = f) := by
  have hP : matchesAsync d f s2 :=
    steps_inv (step_preserves_matchesAsync d f) h
      (show d = d ∧ f = f from ⟨rfl, rfl⟩)
  cases s2 with
  | base d3 c3 t3 raw3 => exact hP.elim
  | async d3 f3 raw3 =>
    refine ⟨fun d2 hd => ?_, fun f2 hf => ?_⟩
    · cases hd
      exact hP.1
    · cases hf
      exact hP.2
  | syncStream d3 t3 c3 => exact hP.elim
  | asyncStream d3 f3 =>
    refine ⟨fun d2 hd => ?_, fun f2 hf => ?_⟩
    · cases hd
      exact hP.1
    · cases hf
      exact hP.2
  | failed e =>
    exact ⟨fun d2 hd => (by cases hd), fun f2 hf => (by cases hf)⟩

/-- Witness for C7: after a successful open, the async stream reports the
direction fixed at binding time. -/
theorem claim_C7_witness : Direction.Input = Direction.Input :=
  (claim_C7_direction_fixed_after_bind .Input ⟨.input, (.I16, .Mono)⟩ new_builder
    [Op.openStream (.ok 0)] (BState.asyncStream .Input ⟨.input, (.I16, .Mono)⟩)
    (Steps.cons (Step.openAsyncOk .Input ⟨.input, (.I16, .Mono)⟩ new_builder 0)
      (Steps.nil _))).1 .Input rfl

/-- C9: in every builder state reachable through the public API from
`new()`, the stored `mAudioApi` converts back through `from_i32`, so the
unwrap in `get_audio_api` cannot panic. -/
theorem claim_C9_get_audio_api_total (ops : List Op) (s2 : BState)
    (h : Steps initState ops s2) (raw : AudioStreamBuilderRaw)
    (hr : rawOf s2 = some raw) :
    (get_audio_api raw).isSome = true := by
  have hP : apiValid s2 := steps_inv step_preserves_apiValid h (by exact rfl)
  simp only [apiValid, hr] at hP
  exact hP

/-- Witness for C9: the freshly created builder's `get_audio_api`
succeeds. -/
theorem claim_C9_witness : (get_audio_api new_builder).isSome = true :=
  claim_C9_get_audio_api_total [] initState (Steps.nil _) new_builder rfl

/-- C8: the default-constructed builder's record has direction Output,
channel count Unspecified, format Unspecified, sharing Shared, both
conversion flags true, and resample quality None. -/
theorem claim_C8_defaults :
    new_builder.base.mDirection = Direction.Output.toI32 ∧
    new_builder.base.mChannelCount = ChannelCount.Unspecified.toI32 ∧
    new_builder.base.mFormat = AudioFormat.Unspecified.toI32 ∧
    new_builder.base.mSharingMode = SharingMode.Shared.toI32 ∧
    new_builder.base.mChannelConversionAllowed = true ∧
    new_builder.base.mFormatConversionAllowed = true ∧
    new_builder.base.mSampleRateConversionQuality = SampleRateConversionQuality.None.toI32 :=
  ⟨rfl, rfl, rfl, rfl, rfl, rfl, rfl⟩

/-- C10: `AudioDeviceDirection::new` returns None exactly when both
arguments are false, and round-trips with `is_input` / `is_output`. -/
theorem claim_C10_device_direction_roundtrip :
    (∀ i o : Bool, AudioDeviceDirection.new i o = none ↔ (i = false ∧ o = false)) ∧
    (∀ d : AudioDeviceDirection,
      AudioDeviceDirection.new d.is_input d.is_output = some d) := by
  decide

end OboeSpec
